import Mathlib

/-!
Verification development for the go-buffer library (package `buffer`).

The embedding models, from the source:
  * `validateBuffer` (options.go) — configuration validation;
  * the facade operations `Push`, `Flush`, `Close` and the `closed` check
    (buffer.go) — as functions over an abstract buffer state, with the
    nondeterministic channel interactions (whether a send is accepted
    before its `time.After` deadline, and when) supplied as oracle
    arguments;
  * the coordination loop `consume` (buffer.go) — as a step function over
    the loop's state (the filled prefix `items[0:count]` of the backing
    array, the `isOpen` flag, and the current ticker) driven by the
    sequence of events the `select` statement delivers, recording every
    batch handed to `Flusher.Write`.

Go's `time.Duration` is `int64`; durations are modelled as `Int`.
`uint` sizes are modelled as `Nat`.
-/

/-- Validation errors produced by `validateBuffer` (options.go).
`invalidInterval` and `invalidTimeout` carry the field name interpolated
by `fmt.Errorf`. -/
inductive ValErr where
  | invalidSize
  | invalidFlusher
  | invalidInterval (field : String)
  | invalidTimeout (field : String)
deriving DecidableEq

/-- The configuration fields of `Buffer` (buffer.go). `hasFlusher` models
whether the `Flusher` field is non-nil; the sink itself is modelled by the
trace of batches in `consumeRun` below. -/
structure Config where
  Size : Nat
  hasFlusher : Bool
  FlushInterval : Int
  PushTimeout : Int
  FlushTimeout : Int
  CloseTimeout : Int
deriving DecidableEq

/-- `validateBuffer` (options.go lines 63-84): a chain of `if` statements,
each returning the error for the first failing field. -/
def validateBuffer (c : Config) : Option ValErr :=
  if c.Size = 0 then some ValErr.invalidSize
  else if c.hasFlusher = false then some ValErr.invalidFlusher
  else if c.FlushInterval < 0 then some (ValErr.invalidInterval "FlushInterval")
  else if c.PushTimeout < 0 then some (ValErr.invalidTimeout "PushTimeout")
  else if c.FlushTimeout < 0 then some (ValErr.invalidTimeout "FlushTimeout")
  else if c.CloseTimeout < 0 then some (ValErr.invalidTimeout "CloseTimeout")
  else none

/-- Spec-side rule: capacity must be nonzero. Reads only the size field. -/
def checkSize (size : Nat) : Option ValErr :=
  if size = 0 then some ValErr.invalidSize else none

/-- Spec-side rule: sink reference must be non-null. Reads only the flusher
field. -/
def checkFlusher (has : Bool) : Option ValErr :=
  if has then none else some ValErr.invalidFlusher

/-- Spec-side rule: flush interval must be ≥ 0. Reads only the interval
field. -/
def checkInterval (i : Int) : Option ValErr :=
  if i < 0 then some (ValErr.invalidInterval "FlushInterval") else none

/-- Spec-side rule: a timeout must be ≥ 0. Reads only the one timeout it is
given. -/
def checkTimeout (field : String) (t : Int) : Option ValErr :=
  if t < 0 then some (ValErr.invalidTimeout field) else none

/-- First failure among a list of independently computed rule outcomes. -/
def firstErr : List (Option ValErr) → Option ValErr
  | [] => none
  | some e :: _ => some e
  | none :: rest => firstErr rest

/-- The spec's reading of validation (spec §4.1): each rule is checked
independently of the others — each reads a single field — and any single
failure aborts, the first one (in the documented order) being reported. -/
def validateSpec (c : Config) : Option ValErr :=
  firstErr [checkSize c.Size, checkFlusher c.hasFlusher,
            checkInterval c.FlushInterval,
            checkTimeout "PushTimeout" c.PushTimeout,
            checkTimeout "FlushTimeout" c.FlushTimeout,
            checkTimeout "CloseTimeout" c.CloseTimeout]

/-- The configuration produced by `New` (buffer.go lines 170-186) before any
option is applied: size 0, no flusher, no interval, every timeout one
second (10^9 ns). -/
def newConfig : Config :=
  ⟨0, false, 0, 1000000000, 1000000000, 1000000000⟩

/-- The runtime state of a `Buffer` as the facade sees it.
`initialized` models `dataCh != nil` (`IsIntialized`, buffer.go line 192);
all four channels are created together in `initialize`, so one flag
suffices. `done` models whether `doneCh` has been closed by the worker
(the lifecycle signal). -/
structure BufState where
  initialized : Bool
  done : Bool
deriving DecidableEq

/-- The state of a buffer fresh out of `New`, before any `Push`: every
channel is nil and no worker exists. -/
def newState : BufState := ⟨false, false⟩

/-- `closed` (buffer.go lines 114-121): a `select` with a `default` branch.
Receiving from `doneCh` can proceed only if the channel exists (is non-nil)
and has been closed; otherwise the `default` branch returns `false`. -/
def closedCheck (st : BufState) : Bool :=
  st.initialized && st.done

/-- Errors a facade operation can return. `errTimeout` stands for the
`errors.Join(..., ErrTimeout)` values, `errClosed` for `ErrClosed`,
`errInvalid e` for a validation error returned by `Push` before
initialization. -/
inductive OpError where
  | errInvalid (e : ValErr)
  | errClosed
  | errTimeout
deriving DecidableEq

/-- Outcome of one facade call: the error (`none` = success), the time the
call spent blocked in its `select` statement(s), and the buffer state when
the call returns. -/
structure OpResult where
  err : Option OpError
  wait : Int
  st : BufState
deriving DecidableEq

/-- The initialization prologue of `Push` (buffer.go lines 40-52):
if not initialized, validate the options and, on success, create the
channels and start `consume`. (`initialize` validates a second time with
the same outcome.) -/
def ensureInitialized (c : Config) (st : BufState) : Except ValErr BufState :=
  if st.initialized then Except.ok st
  else
    match validateBuffer c with
    | some e => Except.error e
    | none => Except.ok ⟨true, false⟩

/-- `Push` (buffer.go lines 39-64). `accepted` is the oracle for whether the
send on `dataCh` is accepted before `time.After(PushTimeout)` fires, and
`tAcc` for how long that took. A send on a nil channel can never be
accepted, but `Push` always initializes first, so `dataCh` exists here. -/
def pushOp (c : Config) (st : BufState) (accepted : Bool) (tAcc : Int) : OpResult :=
  match ensureInitialized c st with
  | Except.error e => ⟨some (OpError.errInvalid e), 0, st⟩
  | Except.ok st1 =>
    if closedCheck st1 then ⟨some OpError.errClosed, 0, st1⟩
    else if accepted then ⟨none, tAcc, st1⟩
    else ⟨some OpError.errTimeout, c.PushTimeout, st1⟩

/-- `Flush` (buffer.go lines 70-81). The send on `flushCh` can be accepted
only if the channel exists (`st.initialized`) and the worker reaches the
corresponding `select` case before `time.After(FlushTimeout)` fires
(the oracle `accepted`). -/
def flushOp (c : Config) (st : BufState) (accepted : Bool) (tAcc : Int) : OpResult :=
  if closedCheck st then ⟨some OpError.errClosed, 0, st⟩
  else if st.initialized && accepted then ⟨none, tAcc, st⟩
  else ⟨some OpError.errTimeout, c.FlushTimeout, st⟩

/-- `Close` (buffer.go lines 91-112). First `select`: the send on `closeCh`
is accepted (oracle `acceptClose`, after `tAcc`) or times out after
`CloseTimeout`. Second `select`: the worker closes `doneCh` within the
timeout (oracle `observeDone`, after `tDone`) — in which case the buffer is
fully closed when `Close` returns — or times out again. A send on a nil
`closeCh` can never be accepted. -/
def closeOp (c : Config) (st : BufState) (acceptClose : Bool) (tAcc : Int)
    (observeDone : Bool) (tDone : Int) : OpResult :=
  if closedCheck st then ⟨some OpError.errClosed, 0, st⟩
  else if st.initialized && acceptClose then
    if observeDone then ⟨none, tAcc + tDone, ⟨st.initialized, true⟩⟩
    else ⟨some OpError.errTimeout, tAcc + c.CloseTimeout, st⟩
  else ⟨some OpError.errTimeout, c.CloseTimeout, st⟩

/-- One event delivered by the `select` statement of `consume`
(buffer.go lines 131-143): an item received from `dataCh`, a ticker fire
(possible only when `FlushInterval > 0`, since `newTicker` returns a nil
channel for interval 0), a manual flush request from `flushCh`, or a close
request from `closeCh`. -/
inductive Event (α : Type) where
  | item (x : α)
  | tick
  | flushReq
  | closeReq
deriving DecidableEq

/-- The loop state of `consume` (buffer.go lines 123-158). `items` is the
filled prefix `items[0:count]` of the backing slice, so `count` is
`items.length`; `isOpen` is the loop flag; `tickerGen` counts how many
tickers have been created (`newTicker` at entry is generation 0, and each
flush stops the current ticker and starts a fresh one). -/
structure LoopState (α : Type) where
  items : List α
  isOpen : Bool
  tickerGen : Nat
deriving DecidableEq

/-- The loop state at the top of `consume`: empty batch, open, first
ticker. -/
def initState (α : Type) : LoopState α := ⟨[], true, 0⟩

/-- One iteration of the `consume` loop body: the `select` statement
followed by the `if mustFlush` block. Returns the next state and the list
of batches handed to `Flusher.Write` during the iteration (empty or a
singleton). On `item`, the item is stored at index `count` and `mustFlush`
becomes `count >= len(items)` with `len(items) = Size`; on `tick`,
`flushReq` and `closeReq`, `mustFlush` becomes `count > 0`, and `closeReq`
additionally clears `isOpen`. A flush stops the ticker, writes
`items[:count]`, resets the batch to a fresh empty slice and starts a new
ticker. -/
def consumeStep (size : Nat) (s : LoopState α) (e : Event α) :
    LoopState α × List (List α) :=
  let p : LoopState α × Bool :=
    match e with
    | Event.item x => (⟨s.items ++ [x], s.isOpen, s.tickerGen⟩,
                       decide (s.items.length + 1 ≥ size))
    | Event.tick => (s, decide (s.items.length > 0))
    | Event.flushReq => (s, decide (s.items.length > 0))
    | Event.closeReq => (⟨s.items, false, s.tickerGen⟩,
                         decide (s.items.length > 0))
  if p.2 then (⟨[], p.1.isOpen, p.1.tickerGen + 1⟩, [p.1.items])
  else (p.1, [])

/-- The `consume` loop run over a sequence of delivered events, starting
from state `s`: iterations happen while `isOpen`; once the loop has exited
no further event is received. Returns the final state and the concatenated
list of batches written to the sink, in order. -/
def consumeRun (size : Nat) (s : LoopState α) (es : List (Event α)) :
    LoopState α × List (List α) :=
  match es with
  | [] => (s, [])
  | e :: rest =>
    if s.isOpen then
      let p := consumeStep size s e
      let q := consumeRun size p.1 rest
      (q.1, p.2 ++ q.2)
    else (s, [])

/-- Observable actions of the worker, in order: a batch handed to
`Flusher.Write`, or the closing of `doneCh` (the lifecycle signal) after
the loop exits. -/
inductive SinkAction (α : Type) where
  | write (batch : List α)
  | closeDone
deriving DecidableEq

/-- The ordered trace of observable actions of `consume` run from state `s`
over the delivered events: while open, each iteration contributes its
writes; as soon as the loop exits (`isOpen` false) the worker stops the
ticker, closes `doneCh`, and receives nothing further. -/
def consumeTraceAux (size : Nat) (s : LoopState α) (es : List (Event α)) :
    List (SinkAction α) :=
  if s.isOpen = false then [SinkAction.closeDone]
  else
    match es with
    | [] => []
    | e :: rest =>
      let p := consumeStep size s e
      p.2.map SinkAction.write ++ consumeTraceAux size p.1 rest

/-- Trace of a `consume` worker started by `initialize`. -/
def consumeTrace (size : Nat) (es : List (Event α)) : List (SinkAction α) :=
  consumeTraceAux size (initState α) es

/-- The items carried by the `item` events of a list, in order. -/
def eventItems : List (Event α) → List α
  | [] => []
  | Event.item x :: rest => x :: eventItems rest
  | _ :: rest => eventItems rest

/-! ### Step equations for the coordination loop -/

theorem consumeStep_item (size : Nat) (s : LoopState α) (x : α) :
    consumeStep size s (Event.item x) =
      if size ≤ s.items.length + 1 then
        (⟨[], s.isOpen, s.tickerGen + 1⟩, [s.items ++ [x]])
      else (⟨s.items ++ [x], s.isOpen, s.tickerGen⟩, []) := by
  simp only [consumeStep, ge_iff_le]
  split_ifs <;> simp_all

theorem consumeStep_tick (size : Nat) (s : LoopState α) :
    consumeStep size s Event.tick =
      if 0 < s.items.length then (⟨[], s.isOpen, s.tickerGen + 1⟩, [s.items])
      else (s, []) := by
  simp only [consumeStep, gt_iff_lt]
  split_ifs <;> simp_all

theorem consumeStep_flushReq (size : Nat) (s : LoopState α) :
    consumeStep size s Event.flushReq =
      if 0 < s.items.length then (⟨[], s.isOpen, s.tickerGen + 1⟩, [s.items])
      else (s, []) := by
  simp only [consumeStep, gt_iff_lt]
  split_ifs <;> simp_all

theorem consumeStep_closeReq (size : Nat) (s : LoopState α) :
    consumeStep size s Event.closeReq =
      if 0 < s.items.length then (⟨[], false, s.tickerGen + 1⟩, [s.items])
      else (⟨s.items, false, s.tickerGen⟩, []) := by
  simp only [consumeStep, gt_iff_lt]
  split_ifs <;> simp_all

/-- A concrete valid configuration used by witnesses and counterexamples:
size 2, a flusher present, no interval, all timeouts 5ns. -/
def cfgEx : Config := ⟨2, true, 0, 5, 5, 5⟩

/-- Claim C6: configuration validation checks its rules independently —
the outcome of `validateBuffer` coincides, on every configuration, with
the first failure among the six independently computed per-field rules
(nonzero capacity, non-null sink, interval ≥ 0, the three timeouts ≥ 0),
and validation succeeds exactly when every rule passes; any single failure
aborts (one error is returned). -/
theorem validate_checks_rules_independently : ∀ c : Config,
    validateBuffer c = validateSpec c ∧
    (validateBuffer c = none ↔
      (c.Size ≠ 0 ∧ c.hasFlusher = true ∧ 0 ≤ c.FlushInterval ∧
       0 ≤ c.PushTimeout ∧ 0 ≤ c.FlushTimeout ∧ 0 ≤ c.CloseTimeout)) := by
  intro c
  constructor
  · simp only [validateBuffer, validateSpec, checkSize, checkFlusher,
      checkInterval, checkTimeout]
    split_ifs <;> simp_all [firstErr]
  · simp only [validateBuffer]
    split_ifs <;> simp_all

/-- Claim C9: on a buffer fresh out of `New` on which `Push` was never
called, `Flush` and `Close` never return `ErrClosed`, never validate the
configuration (the result below holds for every configuration, valid or
not) and never initialize the buffer (the state is returned unchanged):
the request channels are nil so no send can be accepted, and each call
waits its full configured timeout and returns the `errors.Join`-wrapped
`ErrTimeout`. -/
theorem uninitialized_flush_close_timeout :
    ∀ (c : Config) (a : Bool) (t : Int) (o : Bool) (td : Int),
    flushOp c newState a t = ⟨some OpError.errTimeout, c.FlushTimeout, newState⟩ ∧
    closeOp c newState a t o td = ⟨some OpError.errTimeout, c.CloseTimeout, newState⟩ := by
  intro c a t o td
  constructor <;> simp [flushOp, closeOp, closedCheck, newState]

/-- Claim C5: after a `Close` call has succeeded, the lifecycle signal is
set (first conjunct: a successful `closeOp` leaves an initialized buffer
with `done` set); and on any such buffer every subsequent `Push`, `Flush`
or `Close` returns `ErrClosed` immediately, with zero time spent waiting
on any configured timeout (second conjunct). -/
theorem after_close_all_ops_closed :
    ∀ (c : Config) (st : BufState) (a a2 : Bool) (t t2 : Int) (o o2 : Bool) (td td2 : Int),
    ((closeOp c st a t o td).err = none →
      (closeOp c st a t o td).st.initialized = true ∧
      (closeOp c st a t o td).st.done = true) ∧
    (st.initialized = true → st.done = true →
      pushOp c st a2 t2 = ⟨some OpError.errClosed, 0, st⟩ ∧
      flushOp c st a2 t2 = ⟨some OpError.errClosed, 0, st⟩ ∧
      closeOp c st a2 t2 o2 td2 = ⟨some OpError.errClosed, 0, st⟩) := by
  intro c st a a2 t t2 o o2 td td2
  constructor
  · intro h
    unfold closeOp at h ⊢
    split_ifs at h ⊢ with h1 h2 h3 <;> simp_all [closedCheck]
  · intro h1 h2
    refine ⟨?_, ?_, ?_⟩ <;>
      · simp [pushOp, flushOp, closeOp, ensureInitialized, closedCheck, h1, h2]

/-- Witness for C5 at a concrete closed buffer. -/
theorem after_close_all_ops_closed_witness :
    pushOp cfgEx ⟨true, true⟩ true 0 = ⟨some OpError.errClosed, 0, ⟨true, true⟩⟩ ∧
    flushOp cfgEx ⟨true, true⟩ true 0 = ⟨some OpError.errClosed, 0, ⟨true, true⟩⟩ ∧
    closeOp cfgEx ⟨true, true⟩ true 0 true 0 = ⟨some OpError.errClosed, 0, ⟨true, true⟩⟩ :=
  (after_close_all_ops_closed cfgEx ⟨true, true⟩ true true 0 0 true true 0 0).2 rfl rfl

/-- Claim C2 counterexample: with the close request accepted by the worker
but shutdown not confirmed within the timeout, `Close` returns the wrapped
`ErrTimeout` (first conjunct, state `⟨true, false⟩`: initialized, worker
not yet terminated). After the sink returns and the worker terminates
(`doneCh` closed, state `⟨true, true⟩`), a later `Close` does NOT succeed:
it returns `ErrClosed`, which is not a success (last two conjuncts) —
refuting the claim that such a later `Close` returns no error. -/
theorem close_after_done_returns_closed_cex :
    closeOp cfgEx ⟨true, false⟩ true 0 false 0 =
      ⟨some OpError.errTimeout, 0 + cfgEx.CloseTimeout, ⟨true, false⟩⟩ ∧
    closeOp cfgEx ⟨true, true⟩ true 0 true 0 = ⟨some OpError.errClosed, 0, ⟨true, true⟩⟩ ∧
    some OpError.errClosed ≠ none := by
  refine ⟨by decide, by decide, by decide⟩

/-- Claim C2 (amended): if `Close` returns `Timeout` because the accepted
close request's shutdown was not confirmed in time, a later `Close` made
after the worker has terminated returns the `Closed` error immediately
(it does not time out, so retrying is safe) — not success; and `Close`
returns the `Closed` error exactly when the lifecycle signal is already
set at entry (the buffer already fully closed). -/
theorem close_closed_iff_lifecycle_set :
    ∀ (c : Config) (st : BufState) (a : Bool) (t : Int) (o : Bool) (td : Int),
    ((closeOp c st a t o td).err = some OpError.errClosed ↔ closedCheck st = true) ∧
    (closedCheck st = true → closeOp c st a t o td = ⟨some OpError.errClosed, 0, st⟩) := by
  intro c st a t o td
  unfold closeOp
  split_ifs <;> simp_all

/-- Witness for the amended C2 at the concrete post-termination state. -/
theorem close_closed_iff_lifecycle_set_witness :
    closeOp cfgEx ⟨true, true⟩ true 0 true 0 = ⟨some OpError.errClosed, 0, ⟨true, true⟩⟩ :=
  (close_closed_iff_lifecycle_set cfgEx ⟨true, true⟩ true 0 true 0).2 rfl

/-! ### Invariant and trace lemmas for the coordination loop -/

theorem consumeStep_inv (size : Nat) (hs : 0 < size) (s : LoopState α)
    (h : s.items.length < size) (e : Event α) :
    (consumeStep size s e).1.items.length < size := by
  cases e <;>
    simp only [consumeStep_item, consumeStep_tick, consumeStep_flushReq,
      consumeStep_closeReq] <;>
    split_ifs <;> simp_all

theorem consumeStep_flush_resets (size : Nat) (s : LoopState α) (e : Event α)
    (h : (consumeStep size s e).2 ≠ []) :
    (consumeStep size s e).1.items = [] := by
  cases e <;>
    simp only [consumeStep_item, consumeStep_tick, consumeStep_flushReq,
      consumeStep_closeReq] at h ⊢ <;>
    split_ifs at h ⊢ <;> simp_all

theorem consumeRun_inv (size : Nat) (hs : 0 < size) :
    ∀ (es : List (Event α)) (s : LoopState α), s.items.length < size →
    (consumeRun size s es).1.items.length < size := by
  intro es
  induction es with
  | nil => intro s h; simpa [consumeRun] using h
  | cons e rest ih =>
    intro s h
    simp only [consumeRun]
    split_ifs with ho
    · exact ih _ (consumeStep_inv size hs s h e)
    · simpa using h

theorem consumeStep_batch_bounds (size : Nat) (s : LoopState α)
    (h : s.items.length < size) (e : Event α) :
    ∀ b ∈ (consumeStep size s e).2, 0 < b.length ∧ b.length ≤ size := by
  cases e <;>
    simp only [consumeStep_item, consumeStep_tick, consumeStep_flushReq,
      consumeStep_closeReq] <;>
    split_ifs <;> intro b hb <;> simp_all <;> omega

theorem consumeRun_batch_bounds (size : Nat) (hs : 0 < size) :
    ∀ (es : List (Event α)) (s : LoopState α), s.items.length < size →
    ∀ b ∈ (consumeRun size s es).2, 0 < b.length ∧ b.length ≤ size := by
  intro es
  induction es with
  | nil => intro s _ b hb; simp [consumeRun] at hb
  | cons e rest ih =>
    intro s h b hb
    simp only [consumeRun] at hb
    split_ifs at hb with ho
    · simp only [List.mem_append] at hb
      rcases hb with hb | hb
      · exact consumeStep_batch_bounds size s h e b hb
      · exact ih _ (consumeStep_inv size hs s h e) b hb
    · simp at hb

theorem consumeStep_concat (size : Nat) (s : LoopState α) (e : Event α) :
    (consumeStep size s e).2.flatten ++ (consumeStep size s e).1.items =
      s.items ++ eventItems [e] := by
  cases e <;>
    simp only [consumeStep_item, consumeStep_tick, consumeStep_flushReq,
      consumeStep_closeReq, eventItems] <;>
    split_ifs <;> simp

theorem consumeStep_open (size : Nat) (s : LoopState α) (e : Event α)
    (ho : s.isOpen = true) (he : e ≠ Event.closeReq) :
    (consumeStep size s e).1.isOpen = true := by
  cases e <;>
    simp only [consumeStep_item, consumeStep_tick, consumeStep_flushReq,
      consumeStep_closeReq] <;>
    split_ifs <;> simp_all

theorem consumeRun_concat (size : Nat) :
    ∀ (es : List (Event α)) (s : LoopState α), s.isOpen = true →
    (∀ e ∈ es, e ≠ Event.closeReq) →
    (consumeRun size s es).2.flatten ++ (consumeRun size s es).1.items =
      s.items ++ eventItems es := by
  intro es
  induction es with
  | nil => intro s _ _; simp [consumeRun, eventItems]
  | cons e rest ih =>
    intro s ho hnc
    have he : e ≠ Event.closeReq := hnc e (List.mem_cons_self e rest)
    have hrest : ∀ x ∈ rest, x ≠ Event.closeReq :=
      fun x hx => hnc x (List.mem_cons_of_mem e hx)
    simp only [consumeRun, ho, if_true]
    rw [List.flatten_append, List.append_assoc,
      ih _ (consumeStep_open size s e ho he) hrest,
      ← List.append_assoc, consumeStep_concat]
    cases e <;> simp [eventItems]

theorem consumeRun_exact_fill (size : Nat) :
    ∀ (xs : List α) (s : LoopState α), s.isOpen = true → xs ≠ [] →
    s.items.length + xs.length = size →
    consumeRun size s (xs.map Event.item) =
      (⟨[], true, s.tickerGen + 1⟩, [s.items ++ xs]) := by
  intro xs
  induction xs with
  | nil => intro s _ hne _; exact absurd rfl hne
  | cons x rest ih =>
    intro s ho hne hlen
    by_cases hr : rest = []
    · subst hr
      simp only [List.map, consumeRun, ho, if_true]
      rw [consumeStep_item, if_pos (by simp at hlen; omega)]
      simp [consumeRun, ho]
    · simp only [List.map, consumeRun, ho, if_true]
      have hrlen : 0 < rest.length := List.length_pos.mpr hr
      rw [consumeStep_item]
      simp only [ho]
      rw [if_neg (by simp only [List.length_cons] at hlen; omega)]
      have hstep := ih ⟨s.items ++ [x], true, s.tickerGen⟩ rfl hr
        (by simp only [List.length_append, List.length_cons,
              List.length_nil] at hlen ⊢; omega)
      simp [hstep, List.append_assoc]

/-- Claim C1: with a validated capacity, a run of the coordination loop over
exactly `size` item arrivals (no tick, no manual flush, no close) hands the
sink exactly one batch, containing all `size` items in arrival order, and
leaves an empty pending batch (first conjunct); more generally, over any
event sequence without a close request, the concatenation of the batches
handed to the sink, followed by the still-pending items, equals the items
the loop received, in order (second conjunct). -/
theorem consume_capacity_batch_and_concat (size : Nat) (xs : List α)
    (es : List (Event α)) (s : LoopState α)
    (hs : 0 < size) (hlen : xs.length = size)
    (ho : s.isOpen = true) (hnc : ∀ e ∈ es, e ≠ Event.closeReq) :
    consumeRun size (initState α) (xs.map Event.item) =
      (⟨[], true, 1⟩, [xs]) ∧
    (consumeRun size s es).2.flatten ++ (consumeRun size s es).1.items =
      s.items ++ eventItems es := by
  constructor
  · have hne : xs ≠ [] := by
      intro h
      rw [h] at hlen
      simp at hlen
      omega
    have := consumeRun_exact_fill size xs (initState α) rfl hne
      (by simp [initState, hlen])
    simpa [initState] using this
  · exact consumeRun_concat size es s ho hnc

/-- Witness for C1: capacity 2, items 10, 20 pushed; and a mixed
item/tick sequence for the concatenation part. -/
theorem consume_capacity_batch_and_concat_witness :
    consumeRun 2 (initState Nat) ([10, 20].map Event.item) =
      (⟨[], true, 1⟩, [[10, 20]]) ∧
    (consumeRun 2 (initState Nat) [Event.item 5, Event.tick]).2.flatten ++
      (consumeRun 2 (initState Nat) [Event.item 5, Event.tick]).1.items =
      (initState Nat).items ++ eventItems [Event.item 5, Event.tick] :=
  consume_capacity_batch_and_concat 2 [10, 20] [Event.item 5, Event.tick]
    (initState Nat) (by decide) (by decide) (by decide) (by decide)

theorem consumeTraceAux_closed (size : Nat) (s : LoopState α)
    (h : s.isOpen = false) (es : List (Event α)) :
    consumeTraceAux size s es = [SinkAction.closeDone] := by
  cases es <;> simp [consumeTraceAux, h]

/-- Claim C3: when the loop receives a close request, the trace it produces
is a final flush — exactly one `write` of the pending items, present if
and only if pending items exist — followed by the publication of the
lifecycle signal, with any later events ignored (first conjunct); in
particular with capacity 2, one pushed item then close yields exactly
`write [1]` then `closeDone` (second conjunct). -/
theorem close_final_flush_then_done (size : Nat) (s : LoopState α)
    (rest : List (Event α)) (ho : s.isOpen = true) :
    (s.items = [] →
      consumeTraceAux size s (Event.closeReq :: rest) = [SinkAction.closeDone]) ∧
    (s.items ≠ [] →
      consumeTraceAux size s (Event.closeReq :: rest) =
        [SinkAction.write s.items, SinkAction.closeDone]) ∧
    consumeTrace 2 [Event.item (1 : Nat), Event.closeReq] =
      [SinkAction.write [1], SinkAction.closeDone] := by
  refine ⟨?_, ?_, by decide⟩
  · intro h
    have hstep : consumeStep size s Event.closeReq =
        (⟨s.items, false, s.tickerGen⟩, []) := by
      rw [consumeStep_closeReq, if_neg (by simp [h])]
    simp [consumeTraceAux, ho, hstep, h, consumeTraceAux_closed]
  · intro h
    have hstep : consumeStep size s Event.closeReq =
        (⟨[], false, s.tickerGen + 1⟩, [s.items]) := by
      rw [consumeStep_closeReq, if_pos (List.length_pos.mpr h)]
    simp [consumeTraceAux, ho, hstep, consumeTraceAux_closed]

/-- Witness for C3 at a concrete one-item pending state. -/
theorem close_final_flush_then_done_witness :
    consumeTraceAux 2 (⟨[5], true, 0⟩ : LoopState Nat) [Event.closeReq] =
      [SinkAction.write [5], SinkAction.closeDone] ∧
    consumeTrace 2 [Event.item (1 : Nat), Event.closeReq] =
      [SinkAction.write [1], SinkAction.closeDone] :=
  ⟨(close_final_flush_then_done 2 ⟨[5], true, 0⟩ [] rfl).2.1 (by decide),
   (close_final_flush_then_done 2 ⟨[5], true, 0⟩ [] rfl).2.2⟩

/-- Claim C4: a manual flush request processed with N pending items,
0 < N < capacity, produces exactly one sink invocation with exactly those
N items in enqueue order, resetting the batch (first conjunct); one
processed with zero pending items does not invoke the sink and leaves the
state unchanged (second conjunct); and an accepted `Flush` call still
returns success (third conjunct). -/
theorem manual_flush_exact_batch (size : Nat) (c : Config) (s s0 : LoopState α)
    (t : Int) (hN : 0 < s.items.length) (hlt : s.items.length < size)
    (h0 : s0.items = []) :
    consumeStep size s Event.flushReq =
      (⟨[], s.isOpen, s.tickerGen + 1⟩, [s.items]) ∧
    consumeStep size s0 Event.flushReq = (s0, []) ∧
    flushOp c ⟨true, false⟩ true t = ⟨none, t, ⟨true, false⟩⟩ := by
  refine ⟨?_, ?_, ?_⟩
  · rw [consumeStep_flushReq, if_pos hN]
  · rw [consumeStep_flushReq, if_neg (by simp [h0])]
  · simp [flushOp, closedCheck]

/-- Witness for C4: one pending item with capacity 2, and an empty batch. -/
theorem manual_flush_exact_batch_witness :
    consumeStep 2 (⟨[9], true, 0⟩ : LoopState Nat) Event.flushReq =
      (⟨[], true, 1⟩, [[9]]) ∧
    consumeStep 2 (⟨[], true, 0⟩ : LoopState Nat) Event.flushReq =
      (⟨[], true, 0⟩, []) ∧
    flushOp cfgEx ⟨true, false⟩ true 0 = ⟨none, 0, ⟨true, false⟩⟩ :=
  manual_flush_exact_batch 2 cfgEx ⟨[9], true, 0⟩ ⟨[], true, 0⟩ 0
    (by decide) (by decide) rfl

/-- Claim C7: a ticker fire received with an empty pending batch leaves the
state unchanged and does not invoke the sink (first conjunct); every
iteration that flushes — whatever the triggering event — stops the current
ticker and starts a fresh one for a full interval window (second conjunct,
ticker generation bumped), while an iteration that does not flush leaves
the ticker untouched (third conjunct), so the interval always measures
time since the last flush. -/
theorem tick_empty_noop_and_flush_restarts_ticker (size : Nat)
    (s s2 : LoopState α) (e : Event α) (hempty : s.items = []) :
    consumeStep size s Event.tick = (s, []) ∧
    ((consumeStep size s2 e).2 ≠ [] →
      (consumeStep size s2 e).1.tickerGen = s2.tickerGen + 1) ∧
    ((consumeStep size s2 e).2 = [] →
      (consumeStep size s2 e).1.tickerGen = s2.tickerGen) := by
  refine ⟨?_, ?_, ?_⟩
  · rw [consumeStep_tick, if_neg (by simp [hempty])]
  · intro h
    cases e <;> simp only [consumeStep_item, consumeStep_tick,
      consumeStep_flushReq, consumeStep_closeReq] at h ⊢ <;>
      split_ifs at h ⊢ <;> simp_all
  · intro h
    cases e <;> simp only [consumeStep_item, consumeStep_tick,
      consumeStep_flushReq, consumeStep_closeReq] at h ⊢ <;>
      split_ifs at h ⊢ <;> simp_all

/-- Witness for C7: empty-batch tick, and a flushing manual-flush step. -/
theorem tick_empty_noop_and_flush_restarts_ticker_witness :
    consumeStep 2 (⟨[], true, 0⟩ : LoopState Nat) Event.tick =
      (⟨[], true, 0⟩, []) ∧
    (consumeStep 2 (⟨[3], true, 0⟩ : LoopState Nat) Event.flushReq).1.tickerGen =
      0 + 1 :=
  ⟨(tick_empty_noop_and_flush_restarts_ticker 2 (⟨[], true, 0⟩ : LoopState Nat)
      (⟨[3], true, 0⟩ : LoopState Nat) Event.flushReq rfl).1,
   (tick_empty_noop_and_flush_restarts_ticker 2 (⟨[], true, 0⟩ : LoopState Nat)
      (⟨[3], true, 0⟩ : LoopState Nat) Event.flushReq rfl).2.1 (by decide)⟩

/-- Claim C8: from any loop state satisfying the loop-head invariant
(pending count strictly below capacity — which holds initially and is what
every iteration re-establishes, a capacity-triggered flush happening in
the same iteration that fills the batch), one processed event keeps the
pending length at most the capacity (first conjunct), every flushing step
resets the batch to a fresh empty one (second conjunct), and any run of
further events keeps the pending length at most the capacity (third
conjunct). -/
theorem pending_le_capacity_invariant (size : Nat) (s : LoopState α)
    (e : Event α) (es : List (Event α)) (hs : 0 < size)
    (hinv : s.items.length < size) :
    (consumeStep size s e).1.items.length ≤ size ∧
    ((consumeStep size s e).2 ≠ [] → (consumeStep size s e).1.items = []) ∧
    (consumeRun size s es).1.items.length ≤ size :=
  ⟨Nat.le_of_lt (consumeStep_inv size hs s hinv e),
   consumeStep_flush_resets size s e,
   Nat.le_of_lt (consumeRun_inv size hs es s hinv)⟩

/-- Witness for C8: capacity 2, one pending item, arriving item flushes. -/
theorem pending_le_capacity_invariant_witness :
    (consumeStep 2 (⟨[7], true, 0⟩ : LoopState Nat) (Event.item 8)).1.items.length ≤ 2 ∧
    ((consumeStep 2 (⟨[7], true, 0⟩ : LoopState Nat) (Event.item 8)).2 ≠ [] →
      (consumeStep 2 (⟨[7], true, 0⟩ : LoopState Nat) (Event.item 8)).1.items = []) ∧
    (consumeRun 2 (⟨[7], true, 0⟩ : LoopState Nat) [Event.item 8]).1.items.length ≤ 2 :=
  pending_le_capacity_invariant 2 ⟨[7], true, 0⟩ (Event.item 8) [Event.item 8]
    (by decide) (by decide)

/-- Claim C10: with a validated capacity (`0 < size`), every batch the
coordination loop hands to `Flusher.Write` over any event sequence —
whatever mix of capacity, ticker, manual-flush or close triggers — has
length at least 1 and at most `size`. -/
theorem sink_batches_bounds (size : Nat) (es : List (Event α)) (hs : 0 < size) :
    ∀ b ∈ (consumeRun size (initState α) es).2, 0 < b.length ∧ b.length ≤ size :=
  consumeRun_batch_bounds size hs es (initState α) (by simpa [initState] using hs)

/-- Witness for C10: capacity 1, one pushed item, one singleton batch. -/
theorem sink_batches_bounds_witness :
    0 < ([7] : List Nat).length ∧ ([7] : List Nat).length ≤ 1 :=
  sink_batches_bounds 1 [Event.item 7] (by decide) [7] (by decide)
